import Mathlib

/-!
# PhishGuard backend — shallow embedding and verification

This file embeds the core of the PhishGuard backend (`src/backend/server.js`
and the near-duplicate entry point `src/unnamed/part_000`) as executable Lean
definitions and proves or refutes the frozen claims about it.

Modelling conventions:
* Mongo ObjectIds are modelled as `Nat`; Mongo documents as Lean structures.
* The Mongo collections are lists held in a `DB` state record; `Model.find()`
  is the list itself, `findById` is `List.find?` on the id, appending a saved
  document models `doc.save()`, and `findByIdAndUpdate _ {$inc: …}` is a map
  that bumps every document with the matching id (a no-op when absent, as in
  Mongo).
* JavaScript numbers are modelled as `Nat` where the code only counts, and as
  `ℚ` where the code divides; `x.toFixed(1)` is modelled as rounding to one
  decimal (`toFixed1` on ℚ, `toFixed1Str` where the result is kept a string).
* The mailer collaborator is a per-recipient success predicate passed as a
  function argument; timestamps, logging and HTTP plumbing carry no state and
  are dropped.
-/

namespace PhishGuard

/-- A `User` document (`UserSchema` in server.js). -/
structure User where
  id : Nat
  name : String
  email : String
  department : String
deriving Repr, DecidableEq

/-- A `Campaign` document (`CampaignSchema` in server.js). `clicks` and
`credentials` are the denormalized counters maintained by the tracking
endpoints. -/
structure Campaign where
  id : Nat
  name : String
  customSubject : String
  customBody : String
  targetUsers : List Nat
  status : String
  clicks : Nat
  credentials : Nat
deriving Repr, DecidableEq

/-- A `Click` event document (`ClickSchema` in server.js). -/
structure Click where
  campaignId : Nat
  userId : Nat
  token : String
  ipAddress : String
  userAgent : String
deriving Repr, DecidableEq

/-- A `Credential` event document (`CredentialSchema` in server.js). The
schema has fields `campaignId`, `userId`, `attempted`, `timestamp` only —
no field can hold the submitted password. -/
structure Credential where
  campaignId : Nat
  userId : Nat
  attempted : Bool
deriving Repr, DecidableEq

/-- The database state: the four Mongo collections the core touches. -/
structure DB where
  users : List User
  campaigns : List Campaign
  clicks : List Click
  credentials : List Credential
deriving Repr, DecidableEq

/-- `Campaign.findById(cid)`. -/
def findCampaign (s : DB) (cid : Nat) : Option Campaign :=
  s.campaigns.find? (fun c => c.id == cid)

/-- `User.findById(uid)`. -/
def findUser (s : DB) (uid : Nat) : Option User :=
  s.users.find? (fun u => u.id == uid)

/-- `Campaign.findByIdAndUpdate(cid, {$inc: {clicks: 1}})`: bump the clicks
counter of the campaign with id `cid`; a no-op when no such campaign exists,
exactly as in Mongo. -/
def incClicks (cs : List Campaign) (cid : Nat) : List Campaign :=
  cs.map (fun c => if c.id == cid then { c with clicks := c.clicks + 1 } else c)

/-- `Campaign.findByIdAndUpdate(cid, {$inc: {credentials: 1}})`. -/
def incCredentials (cs : List Campaign) (cid : Nat) : List Campaign :=
  cs.map (fun c => if c.id == cid then { c with credentials := c.credentials + 1 } else c)

/-- The three risk levels (`'Alto'/'Medio'/'Bajo'` in the statistics endpoint,
`'high'/'medium'/'low'` in the vulnerability report). -/
inductive Risk where
  | low
  | medium
  | high
deriving Repr, DecidableEq

/-- The risk classification expression
`userCreds > 1 ? hi : userClicks > 2 ? mid : lo`, inlined identically in
`GET /api/statistics/users` and `GET /api/reports/vulnerability`. -/
def classifyRisk (clicks creds : Nat) : Risk :=
  if creds > 1 then .high else if clicks > 2 then .medium else .low

/-- Spanish labels used by `GET /api/statistics/users`. -/
def riskEs : Risk → String
  | .low => "Bajo"
  | .medium => "Medio"
  | .high => "Alto"

/-- English labels used by `GET /api/reports/vulnerability`. -/
def riskEn : Risk → String
  | .low => "low"
  | .medium => "medium"
  | .high => "high"

/-- One row of the `GET /api/statistics/users` response. -/
structure UserStat where
  userId : Nat
  name : String
  email : String
  department : String
  clicks : Nat
  credentials : Nat
  risk : String
deriving Repr, DecidableEq

/-- `GET /api/statistics/users`: for each user, count Click and Credential
events matching the user's id and classify risk. -/
def userStatistics (s : DB) : List UserStat :=
  s.users.map (fun u =>
    let userClicks := (s.clicks.filter (fun c => c.userId == u.id)).length
    let userCreds := (s.credentials.filter (fun c => c.userId == u.id)).length
    { userId := u.id, name := u.name, email := u.email,
      department := u.department,
      clicks := userClicks, credentials := userCreds,
      risk := riskEs (classifyRisk userClicks userCreds) })

/-- One mailer invocation: the argument record of `transporter.sendMail`
(the `from` field is a constant and is dropped). -/
structure MailMsg where
  «to» : String
  subject : String
  text : String
  html : String
deriving Repr, DecidableEq

/-- Body of `POST /api/campaigns`. -/
structure DispatchRequest where
  name : String
  customSubject : String
  customBody : String
  targetUsers : List Nat
deriving Repr, DecidableEq

/-- Response of `POST /api/campaigns`: a 400 with an error message, or a 201
carrying the sent/failed tallies. -/
inductive DispatchResponse where
  | validationError (msg : String)
  | created (emailsSent emailsFailed : Nat)
deriving Repr, DecidableEq

/-- Strip leading and trailing whitespace from a character list; the
char-list core of JavaScript `s.trim()`. -/
def trimChars (l : List Char) : List Char :=
  ((l.dropWhile Char.isWhitespace).reverse.dropWhile Char.isWhitespace).reverse

/-- JavaScript `s.trim()` (implemented over the character list so that it
evaluates inside the kernel). -/
def jsTrim (s : String) : String := ⟨trimChars s.data⟩

/-- Replace the first occurrence of `pat` in a character list by `repl`;
the char-list core of JavaScript `s.replace(stringPattern, repl)`. -/
def replaceFirstAux (pat repl : List Char) : List Char → List Char
  | [] => []
  | c :: cs =>
    if pat.isPrefixOf (c :: cs) then repl ++ (c :: cs).drop pat.length
    else c :: replaceFirstAux pat repl cs

/-- JavaScript `s.replace(pat, repl)` with a *string* pattern replaces only
the first occurrence; models `customBody.replace('[LINK]', trackingUrl)`. -/
def replaceFirst (s pat repl : String) : String :=
  ⟨replaceFirstAux pat.data repl.data s.data⟩

/-- Replace every occurrence of the character `c` by `repl`; the char-list
core of JavaScript `s.replace(/c/g, repl)`. -/
def replaceCharAux (c : Char) (repl : List Char) : List Char → List Char
  | [] => []
  | a :: as =>
    if a == c then repl ++ replaceCharAux c repl as
    else a :: replaceCharAux c repl as

/-- JavaScript `s.replace(/c/g, repl)` for a single-character pattern. -/
def replaceAllChar (s : String) (c : Char) (repl : String) : String :=
  ⟨replaceCharAux c repl.data s.data⟩

/-- `User.find({_id: {$in: targetUsers}})`: the stored users whose id occurs
in the declared target list, in store order, each at most once. -/
def usersFound (s : DB) (targetUsers : List Nat) : List User :=
  s.users.filter (fun u => targetUsers.contains u.id)

/-- One iteration of the dispatch loop: token, tracking URL, `[LINK]`
substitution, and the `sendMail` argument record (`text` is the substituted
body; `html` wraps it in `<p>…</p>` with newlines turned into `<br>`). -/
def buildMsg (subject body : String) (cid : Nat) (token : String) (u : User) : MailMsg :=
  let trackingUrl :=
    "http://localhost:3000/track/" ++ toString cid ++ "/" ++ toString u.id ++ "/" ++ token
  let emailBody := replaceFirst body "[LINK]" trackingUrl
  { «to» := u.email, subject := subject, text := emailBody,
    html := "<p>" ++ replaceAllChar emailBody '\n' "<br>" ++ "</p>" }

/-- The `for (const user of users)` loop of `POST /api/campaigns`.
`tok i` is the token `crypto.randomBytes(16).toString('hex')` drew at the
`i`-th iteration; `mailOk i` tells whether the `i`-th `sendMail` succeeds.
Returns `(emailsSent, emailsFailed, mailer invocations)`. -/
def dispatchLoop (subject body : String) (cid : Nat) (tok : Nat → String)
    (mailOk : Nat → Bool) : List User → Nat → Nat × Nat × List MailMsg
  | [], _ => (0, 0, [])
  | u :: us, i =>
    let msg := buildMsg subject body cid (tok i) u
    let rest := dispatchLoop subject body cid tok mailOk us (i + 1)
    if mailOk i then (rest.1 + 1, rest.2.1, msg :: rest.2.2)
    else (rest.1, rest.2.1 + 1, msg :: rest.2.2)

/-- `POST /api/campaigns`: validate, persist the Campaign (id `newId`, the
fresh ObjectId Mongo mints), fetch the targeted users that exist, then run
the mail loop. Returns the response, the post-state, and the list of mailer
invocations made. -/
def postCampaign (s : DB) (req : DispatchRequest) (newId : Nat)
    (tok : Nat → String) (mailOk : Nat → Bool) :
    DispatchResponse × DB × List MailMsg :=
  if jsTrim req.name = "" then
    (.validationError "El nombre de la campaña es requerido", s, [])
  else if jsTrim req.customSubject = "" then
    (.validationError "El asunto del email es requerido", s, [])
  else if jsTrim req.customBody = "" then
    (.validationError "El cuerpo del email es requerido", s, [])
  else if req.targetUsers = [] then
    (.validationError "Debes seleccionar al menos un usuario objetivo", s, [])
  else
    let campaign : Campaign :=
      { id := newId, name := req.name, customSubject := req.customSubject,
        customBody := req.customBody, targetUsers := req.targetUsers,
        status := "active", clicks := 0, credentials := 0 }
    let s₁ : DB := { s with campaigns := s.campaigns ++ [campaign] }
    let users := usersFound s req.targetUsers
    let r := dispatchLoop req.customSubject req.customBody newId tok mailOk users 0
    (.created r.1 r.2.1, s₁, r.2.2)

/-- Response of `GET /track/:campaignId/:userId/:token`: a 302 redirect to
the decoy page, or a 404. -/
inductive TrackResponse where
  | redirect (path : String)
  | notFound
deriving Repr, DecidableEq

/-- The shared pair of statements `click.save(); Campaign.findByIdAndUpdate
(campaignId, {$inc:{clicks:1}})` run by both click-recording paths. -/
def recordClickState (s : DB) (e : Click) : DB :=
  { s with clicks := s.clicks ++ [e],
           campaigns := incClicks s.campaigns e.campaignId }

/-- The shared pair of statements `credential.save(); Campaign.findByIdAnd
Update(campaignId, {$inc:{credentials:1}})` run by both credential paths. -/
def recordCredentialState (s : DB) (e : Credential) : DB :=
  { s with credentials := s.credentials ++ [e],
           campaigns := incCredentials s.campaigns e.campaignId }

/-- `GET /track/:campaignId/:userId/:token` (part_000 lines 250–287): verify
campaign and user exist (404 otherwise), record the click, bump the counter,
redirect to the decoy page. `ip`/`userAgent` come from the request context. -/
def getTrackClick (s : DB) (cid uid : Nat) (token ip userAgent : String) :
    TrackResponse × DB :=
  match findCampaign s cid, findUser s uid with
  | some _, some _ =>
    (.redirect ("/phishing/" ++ toString cid ++ "/" ++ toString uid),
     recordClickState s ⟨cid, uid, token, ip, userAgent⟩)
  | _, _ => (.notFound, s)

/-- Response of `POST /track/phishing`. -/
inductive PhishResponse where
  | success (redirect : String)
  | notFound
  | validationError
deriving Repr, DecidableEq

/-- `POST /track/phishing` (part_000 lines 290–330): require `campaignId` and
`userId` (400 otherwise), verify both exist (404 otherwise), then persist a
Credential event with `attempted := true` and bump the campaign's counter.
The function receives the submitted `email` and `password` exactly as the
handler destructures them from the request body; neither reaches the state. -/
def postTrackPhishing (s : DB) (campaignId userId : Option Nat)
    (email password : String) : PhishResponse × DB :=
  match campaignId, userId with
  | some cid, some uid =>
    match findCampaign s cid, findUser s uid with
    | some _, some _ =>
      (.success "/phishing/success", recordCredentialState s ⟨cid, uid, true⟩)
    | _, _ => (.notFound, s)
  | _, _ => (.validationError, s)

/-- Response of the compatibility endpoints `POST /api/track/click` and
`POST /api/track/credentials`: the handlers have no not-found path at all —
they answer `{success:true}` whenever persistence succeeds. -/
inductive ApiTrackResponse where
  | ok (message : String)
deriving Repr, DecidableEq

/-- `POST /api/track/click` (compat variant, server.js lines 213–233):
persists the Click and bumps the counter of `campaignId` *without checking
that the campaign or user exists*; the `$inc` update is a no-op on a
dangling `campaignId`. -/
def postApiTrackClick (s : DB) (cid uid : Nat) (token ipAddress userAgent : String) :
    ApiTrackResponse × DB :=
  (.ok "Click registrado", recordClickState s ⟨cid, uid, token, ipAddress, userAgent⟩)

/-- `POST /api/track/credentials` (compat variant, server.js lines 235–253):
persists the Credential and bumps the counter, likewise without existence
checks. -/
def postApiTrackCredentials (s : DB) (cid uid : Nat) : ApiTrackResponse × DB :=
  (.ok "Intento de credenciales registrado", recordCredentialState s ⟨cid, uid, true⟩)

/-- Number of Click events referencing campaign `cid`. -/
def countClicks (ks : List Click) (cid : Nat) : Nat :=
  (ks.filter (fun k => k.campaignId == cid)).length

/-- Number of Credential events referencing campaign `cid`. -/
def countCredentials (ks : List Credential) (cid : Nat) : Nat :=
  (ks.filter (fun k => k.campaignId == cid)).length

/-- The counter invariant: every stored campaign's `clicks` (resp.
`credentials`) counter equals the number of Click (resp. Credential) events
referencing it. -/
def counterInv (s : DB) : Prop :=
  ∀ c ∈ s.campaigns,
    c.clicks = countClicks s.clicks c.id ∧
    c.credentials = countCredentials s.credentials c.id

instance (s : DB) : Decidable (counterInv s) := by
  unfold counterInv; infer_instance

/-- The operations of the core, as one step type: campaign dispatch, the two
primary tracking paths, and the two compatibility tracking paths. -/
inductive CoreOp where
  | dispatch (req : DispatchRequest) (newId : Nat) (tok : Nat → String) (mailOk : Nat → Bool)
  | trackGet (cid uid : Nat) (token ip userAgent : String)
  | phishing (campaignId userId : Option Nat) (email password : String)
  | clickCompat (cid uid : Nat) (token ipAddress userAgent : String)
  | credCompat (cid uid : Nat)

/-- State transition of one core operation. -/
def CoreOp.run (op : CoreOp) (s : DB) : DB :=
  match op with
  | .dispatch req newId tok mailOk => (postCampaign s req newId tok mailOk).2.1
  | .trackGet cid uid token ip ua => (getTrackClick s cid uid token ip ua).2
  | .phishing cido uido email pw => (postTrackPhishing s cido uido email pw).2
  | .clickCompat cid uid token ip ua => (postApiTrackClick s cid uid token ip ua).2
  | .credCompat cid uid => (postApiTrackCredentials s cid uid).2

/-- Freshness of a minted campaign id: Mongo ObjectIds are globally unique,
so the id a new campaign receives is referenced by no pre-existing event.
Only the dispatch operation mints an id. -/
def CoreOp.freshId (op : CoreOp) (s : DB) : Prop :=
  match op with
  | .dispatch _ newId _ _ =>
    (∀ k ∈ s.clicks, k.campaignId ≠ newId) ∧
    (∀ k ∈ s.credentials, k.campaignId ≠ newId)
  | _ => True

instance (op : CoreOp) (s : DB) : Decidable (op.freshId s) := by
  unfold CoreOp.freshId
  cases op <;> infer_instance

/-- `q.toFixed(1)` kept as a rational: round to one decimal place. -/
def toFixed1 (q : ℚ) : ℚ := (round (q * 10) : ℤ) / 10

/-- `q.toFixed(1)` rendered as the decimal string JavaScript produces, for
the non-negative rationals that arise here (`count / count * 100`). -/
def toFixed1Str (q : ℚ) : String :=
  let n := (round (q * 10) : ℤ).toNat
  toString (n / 10) ++ "." ++ toString (n % 10)

/-- One row of the `GET /api/statistics/departments` response. -/
structure DeptStat where
  department : String
  total : Nat
  clicked : Nat
  rate : String
deriving Repr, DecidableEq

/-- The keys of the `departments` object in `GET /api/statistics/departments`:
department labels in order of first appearance among the users (the handler
creates the key the first time it sees a user of that department). -/
def deptKeys (users : List User) : List String :=
  users.foldl (fun acc u => if acc.contains u.department then acc else acc ++ [u.department]) []

/-- Whether a click is counted toward department `d`: the handler resolves
the click's user, and requires the resolved user to exist with a truthy
(non-empty) department label equal to `d`. -/
def clickInDept (users : List User) (d : String) (k : Click) : Bool :=
  match users.find? (fun u => u.id == k.userId) with
  | some u => u.department != "" && u.department == d
  | none => false

/-- The department rate expression of `GET /api/statistics/departments`:
`total > 0 ? ((clicked / total) * 100).toFixed(1) : '0.0'`. -/
def deptRate (total clicked : Nat) : String :=
  if total > 0 then toFixed1Str ((clicked : ℚ) / (total : ℚ) * 100) else "0.0"

/-- `GET /api/statistics/departments` (server.js lines 274–324): per
department label, `total` users, `clicked` click *events* attributed to the
department, and the guarded rate string. -/
def departmentStatistics (s : DB) : List DeptStat :=
  (deptKeys s.users).map (fun d =>
    let total := (s.users.filter (fun u => u.department == d)).length
    let clicked := (s.clicks.filter (clickInDept s.users d)).length
    { department := d, total := total, clicked := clicked,
      rate := deptRate total clicked })

/-- The per-user record built inside `GET /api/reports/vulnerability`. -/
structure VulnUserStat where
  userId : Nat
  risk : String
deriving Repr, DecidableEq

/-- The `userStats` array of `GET /api/reports/vulnerability`. -/
def vulnUserStats (s : DB) : List VulnUserStat :=
  s.users.map (fun u =>
    let userClicks := (s.clicks.filter (fun c => c.userId == u.id)).length
    let userCreds := (s.credentials.filter (fun c => c.userId == u.id)).length
    { userId := u.id, risk := riskEn (classifyRisk userClicks userCreds) })

/-- `campaigns.reduce((sum, c) => sum + c.targetUsers.length, 0)`: total
declared recipients across all campaigns. -/
def totalEmails (s : DB) : Nat :=
  s.campaigns.foldl (fun sum c => sum + c.targetUsers.length) 0

/-- The `GET /api/reports/vulnerability` response object. -/
structure VulnReport where
  totalUsers : Nat
  totalCampaigns : Nat
  highRisk : Nat
  mediumRisk : Nat
  lowRisk : Nat
  avgClickRate : ℚ
  avgCredentialRate : ℚ
  recommendations : List String
deriving Repr, DecidableEq

/-- `GET /api/reports/vulnerability` (server.js lines 417–461). The two
rates are `(total/totalEmails*100).toFixed(1)` guarded to the number `0`
when `totalEmails` is `0`. -/
def vulnerabilityReport (s : DB) : VulnReport :=
  let totalClicks := s.clicks.length
  let totalCredentials := s.credentials.length
  let tEmails := totalEmails s
  let stats := vulnUserStats s
  { totalUsers := s.users.length,
    totalCampaigns := s.campaigns.length,
    highRisk := (stats.filter (fun u => u.risk == "high")).length,
    mediumRisk := (stats.filter (fun u => u.risk == "medium")).length,
    lowRisk := (stats.filter (fun u => u.risk == "low")).length,
    avgClickRate :=
      if tEmails > 0 then toFixed1 ((totalClicks : ℚ) / (tEmails : ℚ) * 100) else 0,
    avgCredentialRate :=
      if tEmails > 0 then toFixed1 ((totalCredentials : ℚ) / (tEmails : ℚ) * 100) else 0,
    recommendations :=
      ["Reforzar capacitación en departamentos de alto riesgo",
       "Implementar autenticación de dos factores",
       "Realizar simulaciones mensuales",
       "Crear política de verificación de emails"] }

/-- An HTML-escaped rendering as the spec's words demand ("HTML-escaped
rendering of the body"): the HTML metacharacters are replaced by entity
references. Declared only to compare against what the code actually passes
to the mailer; the code itself performs no such escaping. -/
def specHtmlEscape (body : String) : String :=
  replaceAllChar (replaceAllChar (replaceAllChar (replaceAllChar (replaceAllChar
    body '&' "&amp;") '<' "&lt;") '>' "&gt;") '\x22' "&quot;") '\x27' "&#39;"

/-! ## Concrete instances used by counterexamples and witnesses -/

/-- A store with no users at all. -/
def dbC1 : DB := ⟨[], [], [], []⟩

/-- A dispatch request that passes validation but targets a user id that
exists in no store. -/
def reqC1 : DispatchRequest := ⟨"c", "s", "body", [1]⟩

/-- A store with exactly the user targeted below. -/
def dbC1w : DB := ⟨[⟨1, "Ana", "ana@empresa.com", "RRHH"⟩], [], [], []⟩

/-- A valid dispatch request whose one target exists in `dbC1w`. -/
def reqC1w : DispatchRequest := ⟨"c", "s", "body", [1]⟩

/-- A store with one campaign and one user, counters consistent. -/
def dbC2w : DB :=
  ⟨[⟨1, "Ana", "ana@empresa.com", "RRHH"⟩],
   [⟨9, "c", "s", "b", [1], "active", 0, 0⟩], [], []⟩

/-- The empty store: campaign 9 and user 1 do not exist in it. -/
def dbC3x : DB := ⟨[], [], [], []⟩

/-- A store with one user and no events. -/
def dbC4w : DB := ⟨[⟨1, "Ana", "ana@empresa.com", "RRHH"⟩], [], [], []⟩

/-- A dispatch request whose name is whitespace only. -/
def reqC5w : DispatchRequest := ⟨" ", "s", "b", [1]⟩

/-- A store with one campaign declaring two recipients and one recorded
click: click rate 50%. -/
def dbC7w : DB :=
  ⟨[⟨1, "Ana", "ana@empresa.com", "RRHH"⟩, ⟨2, "Juan", "juan@empresa.com", "Ventas"⟩],
   [⟨9, "c", "s", "b", [1, 2], "active", 1, 0⟩],
   [⟨9, 1, "tok", "ip", "ua"⟩], []⟩

/-- A store with no campaigns: zero targeted recipients. -/
def dbC7z : DB := ⟨[⟨1, "Ana", "ana@empresa.com", "RRHH"⟩], [], [], []⟩

/-- A store with one IT user who clicked once. -/
def dbC8w : DB :=
  ⟨[⟨1, "Ana", "ana@empresa.com", "IT"⟩],
   [⟨9, "c", "s", "b", [1], "active", 1, 0⟩],
   [⟨9, 1, "tok", "ip", "ua"⟩], []⟩

/-- An empty store for the validation-failure witness. -/
def dbC5w : DB := ⟨[], [], [], []⟩

/-- The row `GET /api/statistics/users` produces for the one user of
`dbC4w`. -/
def stC4w : UserStat :=
  { userId := 1, name := "Ana", email := "ana@empresa.com", department := "RRHH",
    clicks := 0, credentials := 0, risk := "Bajo" }

/-- The one department entry produced for `dbC8w`. -/
def eC8w : DeptStat := ⟨"IT", 1, 1, deptRate 1 1⟩

/-- A store with one user, target of the dispatch below. -/
def dbC9x : DB := ⟨[⟨1, "Ana", "ana@empresa.com", "IT"⟩], [], [], []⟩

/-- A valid dispatch request whose body consists of HTML metacharacters. -/
def reqC9x : DispatchRequest := ⟨"c", "s", "<b>x</b>", [1]⟩

/-- The single mailer invocation the dispatch of `reqC9x` makes: the body's
`<` and `>` reach the `html` field verbatim. -/
def msgC9x : MailMsg :=
  { «to» := "ana@empresa.com", subject := "s", text := "<b>x</b>",
    html := "<p><b>x</b></p>" }

/-! ## General lemmas -/

/-- Every iteration of the mail loop bumps exactly one of the two tallies,
so they always sum to the number of users iterated over. -/
theorem dispatchLoop_count (subject body : String) (cid : Nat) (tok : Nat → String)
    (mailOk : Nat → Bool) (us : List User) (i : Nat) :
    (dispatchLoop subject body cid tok mailOk us i).1 +
      (dispatchLoop subject body cid tok mailOk us i).2.1 = us.length := by
  induction us generalizing i with
  | nil => rfl
  | cons u us ih =>
    have h := ih (i + 1)
    simp only [dispatchLoop, List.length_cons]
    cases hok : mailOk i <;> simp only [if_true, if_false, Bool.false_eq_true] <;> omega

/-- Every message the mail loop hands to the mailer is `buildMsg` applied to
one of the iterated users and the token drawn at its iteration. -/
theorem dispatchLoop_mem_msgs (subject body : String) (cid : Nat) (tok : Nat → String)
    (mailOk : Nat → Bool) (us : List User) (i : Nat) (m : MailMsg)
    (h : m ∈ (dispatchLoop subject body cid tok mailOk us i).2.2) :
    ∃ u j, m = buildMsg subject body cid (tok j) u := by
  induction us generalizing i with
  | nil => simp [dispatchLoop] at h
  | cons u us ih =>
    simp only [dispatchLoop] at h
    cases hok : mailOk i <;> simp only [hok, if_true, if_false, Bool.false_eq_true,
      List.mem_cons] at h <;>
      rcases h with rfl | h
    · exact ⟨u, i, rfl⟩
    · exact ih (i + 1) h
    · exact ⟨u, i, rfl⟩
    · exact ih (i + 1) h

/-- Appending one click event adds one to the count of its campaign and
leaves every other campaign's count unchanged. -/
theorem countClicks_append (ks : List Click) (e : Click) (x : Nat) :
    countClicks (ks ++ [e]) x =
      countClicks ks x + (if e.campaignId = x then 1 else 0) := by
  by_cases h : e.campaignId = x <;>
    simp [countClicks, List.filter_append, h]

/-- Appending one credential event adds one to the count of its campaign and
leaves every other campaign's count unchanged. -/
theorem countCredentials_append (ks : List Credential) (e : Credential) (x : Nat) :
    countCredentials (ks ++ [e]) x =
      countCredentials ks x + (if e.campaignId = x then 1 else 0) := by
  by_cases h : e.campaignId = x <;>
    simp [countCredentials, List.filter_append, h]

/-- A campaign id referenced by no click event has click count zero. -/
theorem countClicks_eq_zero (ks : List Click) (x : Nat)
    (h : ∀ k ∈ ks, k.campaignId ≠ x) : countClicks ks x = 0 := by
  simp only [countClicks, List.length_eq_zero, List.filter_eq_nil_iff]
  intro k hk
  simp [h k hk]

/-- A campaign id referenced by no credential event has credential count
zero. -/
theorem countCredentials_eq_zero (ks : List Credential) (x : Nat)
    (h : ∀ k ∈ ks, k.campaignId ≠ x) : countCredentials ks x = 0 := by
  simp only [countCredentials, List.length_eq_zero, List.filter_eq_nil_iff]
  intro k hk
  simp [h k hk]

/-- `findByIdAndUpdate` with `$inc` rewrites the looked-up campaign to its
bumped version. -/
theorem find?_incClicks (cs : List Campaign) (cid : Nat) :
    (incClicks cs cid).find? (fun c => c.id == cid) =
      (cs.find? (fun c => c.id == cid)).map
        (fun c => { c with clicks := c.clicks + 1 }) := by
  induction cs with
  | nil => rfl
  | cons c cs ih =>
    by_cases h : c.id = cid
    · have hstep : incClicks (c :: cs) cid =
          { c with clicks := c.clicks + 1 } :: incClicks cs cid := by
        simp [incClicks, h]
      rw [hstep, List.find?_cons_of_pos _ (by simp [h]),
        List.find?_cons_of_pos _ (by simp [h])]
      rfl
    · have hstep : incClicks (c :: cs) cid = c :: incClicks cs cid := by
        simp [incClicks, h]
      rw [hstep, List.find?_cons_of_neg _ (by simp [h]),
        List.find?_cons_of_neg _ (by simp [h]), ih]

/-- Recording a click (event append plus `$inc`) preserves the counter
invariant. -/
theorem counterInv_recordClick (s : DB) (e : Click) (h : counterInv s) :
    counterInv (recordClickState s e) := by
  intro c' hc'
  simp only [recordClickState, incClicks] at hc'
  rcases List.mem_map.1 hc' with ⟨c, hc, rfl⟩
  have hinv := h c hc
  by_cases hid : c.id = e.campaignId
  · simp only [recordClickState, hid, beq_self_eq_true, if_true, reduceIte]
    refine ⟨?_, hid ▸ hinv.2⟩
    rw [countClicks_append, if_pos rfl, ← hid, ← hinv.1]
  · have hb : (c.id == e.campaignId) = false := by simp [hid]
    simp only [recordClickState, hb, Bool.false_eq_true, if_false]
    refine ⟨?_, hinv.2⟩
    rw [countClicks_append, if_neg (fun hh => hid hh.symm), Nat.add_zero, ← hinv.1]

/-- Recording a credential attempt preserves the counter invariant. -/
theorem counterInv_recordCredential (s : DB) (e : Credential) (h : counterInv s) :
    counterInv (recordCredentialState s e) := by
  intro c' hc'
  simp only [recordCredentialState, incCredentials] at hc'
  rcases List.mem_map.1 hc' with ⟨c, hc, rfl⟩
  have hinv := h c hc
  by_cases hid : c.id = e.campaignId
  · simp only [recordCredentialState, hid, beq_self_eq_true, if_true, reduceIte]
    refine ⟨hid ▸ hinv.1, ?_⟩
    rw [countCredentials_append, if_pos rfl, ← hid, ← hinv.2]
  · have hb : (c.id == e.campaignId) = false := by simp [hid]
    simp only [recordCredentialState, hb, Bool.false_eq_true, if_false]
    refine ⟨hinv.1, ?_⟩
    rw [countCredentials_append, if_neg (fun hh => hid hh.symm), Nat.add_zero, ← hinv.2]

/-- A successful dispatch only appends one campaign document; with a fresh
id, the counter invariant carries over. -/
theorem counterInv_postCampaign (s : DB) (req : DispatchRequest) (newId : Nat)
    (tok : Nat → String) (mailOk : Nat → Bool) (h : counterInv s)
    (hfc : ∀ k ∈ s.clicks, k.campaignId ≠ newId)
    (hfk : ∀ k ∈ s.credentials, k.campaignId ≠ newId) :
    counterInv (postCampaign s req newId tok mailOk).2.1 := by
  unfold postCampaign
  repeat' split
  · exact h
  · exact h
  · exact h
  · exact h
  · intro c' hc'
    simp only [List.mem_append, List.mem_singleton] at hc'
    rcases hc' with hc' | rfl
    · exact h c' hc'
    · exact ⟨(countClicks_eq_zero _ _ hfc).symm,
        (countCredentials_eq_zero _ _ hfk).symm⟩

/-- `reduce((sum, c) => sum + c.targetUsers.length, 0)` is the sum of the
declared target-list lengths. -/
theorem foldl_targetUsers (l : List Campaign) (n : Nat) :
    l.foldl (fun sum c => sum + c.targetUsers.length) n =
      n + (l.map (fun c => c.targetUsers.length)).sum := by
  induction l generalizing n with
  | nil => simp
  | cons c l ih =>
    rw [List.foldl_cons, ih, List.map_cons, List.sum_cons]
    omega

/-- Every key of the departments object was put there by some user with that
department label. -/
theorem mem_deptKeys_aux (us : List User) (acc : List String) (d : String)
    (h : d ∈ us.foldl
      (fun acc u => if acc.contains u.department then acc else acc ++ [u.department]) acc) :
    d ∈ acc ∨ ∃ u ∈ us, u.department = d := by
  induction us generalizing acc with
  | nil => exact .inl h
  | cons u us ih =>
    rw [List.foldl_cons] at h
    rcases ih _ h with hacc | ⟨v, hv, hvd⟩
    · by_cases hc : acc.contains u.department
      · rw [if_pos hc] at hacc
        exact .inl hacc
      · rw [if_neg hc, List.mem_append, List.mem_singleton] at hacc
        rcases hacc with hacc | rfl
        · exact .inl hacc
        · exact .inr ⟨u, List.mem_cons_self _ _, rfl⟩
    · exact .inr ⟨v, List.mem_cons_of_mem _ hv, hvd⟩

/-- Every department key comes from a stored user. -/
theorem exists_user_of_mem_deptKeys (us : List User) (d : String)
    (h : d ∈ deptKeys us) : ∃ u ∈ us, u.department = d := by
  rcases mem_deptKeys_aux us [] d h with hnil | hu
  · simp at hnil
  · exact hu

/-- A list containing an element satisfying the filter predicate has a
positive filtered length. -/
theorem length_filter_pos {α : Type} (l : List α) (p : α → Bool) (a : α)
    (ha : a ∈ l) (hp : p a = true) : 0 < (l.filter p).length :=
  List.length_pos.2 (List.ne_nil_of_mem (List.mem_filter.2 ⟨ha, hp⟩))

/-- A three-way classification by string comparison partitions a list of
per-user records. -/
theorem length_filter_risk_partition (l : List VulnUserStat)
    (h : ∀ x ∈ l, x.risk = "high" ∨ x.risk = "medium" ∨ x.risk = "low") :
    (l.filter (fun u => u.risk == "high")).length
      + (l.filter (fun u => u.risk == "medium")).length
      + (l.filter (fun u => u.risk == "low")).length = l.length := by
  induction l with
  | nil => rfl
  | cons x l ih =>
    have hx := h x (List.mem_cons_self _ _)
    have hrest := ih (fun y hy => h y (List.mem_cons_of_mem _ hy))
    rcases hx with hx | hx | hx <;>
      simp only [List.filter_cons, hx,
        show (("high" : String) == "high") = true by decide,
        show (("high" : String) == "medium") = false by decide,
        show (("high" : String) == "low") = false by decide,
        show (("medium" : String) == "high") = false by decide,
        show (("medium" : String) == "medium") = true by decide,
        show (("medium" : String) == "low") = false by decide,
        show (("low" : String) == "high") = false by decide,
        show (("low" : String) == "medium") = false by decide,
        show (("low" : String) == "low") = true by decide,
        if_true, if_false, Bool.false_eq_true, List.length_cons] <;>
      omega

/-- Every record the vulnerability report builds carries one of the three
risk labels. -/
theorem vulnUserStats_risk_cases (s : DB) (x : VulnUserStat)
    (hx : x ∈ vulnUserStats s) :
    x.risk = "high" ∨ x.risk = "medium" ∨ x.risk = "low" := by
  rcases List.mem_map.1 hx with ⟨u, _, rfl⟩
  cases h : classifyRisk
      (s.clicks.filter (fun c => c.userId == u.id)).length
      (s.credentials.filter (fun c => c.userId == u.id)).length <;>
    simp [riskEn, h]

/-! ## Claims -/

/-- C1 (counterexample): a dispatch request targeting a user id that exists
in no store passes validation (the target list is non-empty), yet the
response reports `emailsSent + emailsFailed = 0`, not the declared target
count 1 — the loop runs over the *found* users, not the declared list. -/
theorem c1_counterexample :
    (postCampaign dbC1 reqC1 1 (fun _ => "t") (fun _ => true)).1 =
      DispatchResponse.created 0 0
    ∧ reqC1.targetUsers.length = 1
    ∧ (0 + 0 : Nat) ≠ reqC1.targetUsers.length :=
  ⟨by decide, by decide, by decide⟩

/-- C1 (amended): whenever campaign dispatch passes validation, the returned
tallies satisfy `emailsSent + emailsFailed = N` where `N` is the number of
*stored* users whose id occurs in the declared target-user list, for every
pattern of per-recipient mailer success and failure. -/
theorem c1_sent_failed_partition (s : DB) (req : DispatchRequest) (newId : Nat)
    (tok : Nat → String) (mailOk : Nat → Bool) (sent failed : Nat)
    (h : (postCampaign s req newId tok mailOk).1 =
      DispatchResponse.created sent failed) :
    sent + failed = (usersFound s req.targetUsers).length := by
  unfold postCampaign at h
  repeat' split at h
  · exact absurd h (by simp)
  · exact absurd h (by simp)
  · exact absurd h (by simp)
  · exact absurd h (by simp)
  · simp only [DispatchResponse.created.injEq] at h
    obtain ⟨rfl, rfl⟩ := h.symm
    exact dispatchLoop_count _ _ _ _ _ _ _

/-- C1 (witness): a concrete dispatch whose single declared target exists
and whose send fails still satisfies the tally equation. -/
theorem c1_witness :
    (postCampaign dbC1w reqC1w 1 (fun _ => "t") (fun _ => false)).1 =
      DispatchResponse.created 0 1
    ∧ (0 + 1 : Nat) = (usersFound dbC1w reqC1w.targetUsers).length :=
  ⟨by decide,
   c1_sent_failed_partition dbC1w reqC1w 1 (fun _ => "t") (fun _ => false) 0 1 (by decide)⟩

/-- C3 (counterexample): with an empty store, a compat click request whose
campaign and user ids reference nothing still answers success and records a
Click event — it does not fail with a not-found error and does not leave the
event log unchanged, contrary to the claim. -/
theorem c3_counterexample :
    findCampaign dbC3x 9 = none
    ∧ findUser dbC3x 1 = none
    ∧ (postApiTrackClick dbC3x 9 1 "tok" "ip" "ua").1 =
        ApiTrackResponse.ok "Click registrado"
    ∧ (postApiTrackClick dbC3x 9 1 "tok" "ip" "ua").2.clicks =
        [⟨9, 1, "tok", "ip", "ua"⟩] :=
  ⟨rfl, rfl, rfl, rfl⟩

/-- C3 (amended): the compatibility click variant performs no existence
check at all: it always answers success, always appends exactly one Click
event built from the request, leaves users and credentials untouched, and
applies the counter `$inc`, which is a no-op when the campaign id dangles. -/
theorem c3_compat_click_contract (s : DB) (cid uid : Nat)
    (token ip ua : String) :
    (postApiTrackClick s cid uid token ip ua).1 =
      ApiTrackResponse.ok "Click registrado"
    ∧ (postApiTrackClick s cid uid token ip ua).2.clicks =
        s.clicks ++ [⟨cid, uid, token, ip, ua⟩]
    ∧ (postApiTrackClick s cid uid token ip ua).2.users = s.users
    ∧ (postApiTrackClick s cid uid token ip ua).2.credentials = s.credentials
    ∧ (postApiTrackClick s cid uid token ip ua).2.campaigns =
        incClicks s.campaigns cid :=
  ⟨rfl, rfl, rfl, rfl, rfl⟩

/-- C4: risk classification is the pure total function
`creds > 1 → high; else clicks > 2 → medium; else low`, it takes the four
sample values the spec lists, and the statistics endpoint labels every user
row with exactly this classification of the row's own counts. -/
theorem c4_risk_classification :
    (∀ clicks creds : Nat, classifyRisk clicks creds =
      if creds > 1 then Risk.high else if clicks > 2 then Risk.medium else Risk.low)
    ∧ classifyRisk 0 0 = Risk.low
    ∧ classifyRisk 3 0 = Risk.medium
    ∧ classifyRisk 0 2 = Risk.high
    ∧ classifyRisk 5 2 = Risk.high
    ∧ ∀ (s : DB), ∀ st ∈ userStatistics s,
        st.risk = riskEs (classifyRisk st.clicks st.credentials) := by
  refine ⟨fun _ _ => rfl, rfl, rfl, rfl, rfl, ?_⟩
  intro s st hst
  rcases List.mem_map.1 hst with ⟨u, _, rfl⟩
  rfl

/-- C4 (witness): the statistics row of a concrete user carries the
classification of its own counts. -/
theorem c4_witness :
    stC4w ∈ userStatistics dbC4w
    ∧ stC4w.risk = riskEs (classifyRisk stC4w.clicks stC4w.credentials) :=
  ⟨by decide, c4_risk_classification.2.2.2.2.2 dbC4w stC4w (by decide)⟩

/-- C5: when the name, subject or body is blank after trimming, or the
target list is empty, dispatch answers a validation error, the store is
returned unchanged, and no mailer invocation happens. -/
theorem c5_validation_failure (s : DB) (req : DispatchRequest) (newId : Nat)
    (tok : Nat → String) (mailOk : Nat → Bool)
    (h : jsTrim req.name = "" ∨ jsTrim req.customSubject = "" ∨
      jsTrim req.customBody = "" ∨ req.targetUsers = []) :
    ∃ m, postCampaign s req newId tok mailOk =
      (DispatchResponse.validationError m, s, []) := by
  unfold postCampaign
  repeat' split
  · exact ⟨_, rfl⟩
  · exact ⟨_, rfl⟩
  · exact ⟨_, rfl⟩
  · exact ⟨_, rfl⟩
  · rcases h with h | h | h | h <;> contradiction

/-- C5 (witness): a request whose name is whitespace only is rejected with
the store unchanged and no mail sent. -/
theorem c5_witness :
    jsTrim reqC5w.name = ""
    ∧ ∃ m, postCampaign dbC5w reqC5w 1 (fun _ => "t") (fun _ => true) =
        (DispatchResponse.validationError m, dbC5w, []) :=
  ⟨by decide,
   c5_validation_failure dbC5w reqC5w 1 (fun _ => "t") (fun _ => true)
     (Or.inl (by decide))⟩

/-- C6: the credential-capture handler's persisted outcome does not depend
on the submitted password — any two requests differing only in the password
produce identical responses and identical post-states — and on success the
appended Credential event consists of the ids and `attempted = true` only. -/
theorem c6_password_independence (s : DB) (campaignId userId : Option Nat)
    (email p₁ p₂ : String) :
    postTrackPhishing s campaignId userId email p₁ =
      postTrackPhishing s campaignId userId email p₂
    ∧ ((postTrackPhishing s campaignId userId email p₁).2.credentials = s.credentials
       ∨ ∃ cid uid, campaignId = some cid ∧ userId = some uid ∧
          (postTrackPhishing s campaignId userId email p₁).2.credentials =
            s.credentials ++ [⟨cid, uid, true⟩]) := by
  refine ⟨rfl, ?_⟩
  unfold postTrackPhishing
  cases campaignId with
  | none => exact .inl rfl
  | some cid =>
    cases userId with
    | none => exact .inl rfl
    | some uid =>
      cases hc : findCampaign s cid with
      | none => exact .inl (by simp [hc])
      | some c =>
        cases hu : findUser s uid with
        | none => exact .inl (by simp [hc, hu])
        | some u =>
          exact .inr ⟨cid, uid, rfl, rfl, by simp [hc, hu, recordCredentialState]⟩

/-- C2: a successful click recording answers the redirect, appends exactly
one Click event, bumps the owning campaign's counter by exactly one and
touches no credential; and every core operation preserves the invariant that
each stored campaign's counters equal the number of events referencing it
(campaign creation assumed to mint a globally fresh id, as Mongo ObjectIds
are). -/
theorem c2_click_recording_invariant :
    (∀ (s : DB) (cid uid : Nat) (token ip ua : String) (c : Campaign),
      findCampaign s cid = some c → (findUser s uid).isSome = true →
      (getTrackClick s cid uid token ip ua).1 =
        TrackResponse.redirect ("/phishing/" ++ toString cid ++ "/" ++ toString uid)
      ∧ (getTrackClick s cid uid token ip ua).2.clicks =
          s.clicks ++ [⟨cid, uid, token, ip, ua⟩]
      ∧ findCampaign (getTrackClick s cid uid token ip ua).2 cid =
          some { c with clicks := c.clicks + 1 }
      ∧ (getTrackClick s cid uid token ip ua).2.credentials = s.credentials)
    ∧ ∀ (s : DB) (op : CoreOp), counterInv s → op.freshId s →
        counterInv (op.run s) := by
  constructor
  · intro s cid uid token ip ua c hc hu
    rcases hu' : findUser s uid with _ | u
    · rw [hu'] at hu
      simp at hu
    · unfold getTrackClick
      rw [hc, hu']
      refine ⟨rfl, rfl, ?_, rfl⟩
      show findCampaign (recordClickState s ⟨cid, uid, token, ip, ua⟩) cid = _
      have hmap : findCampaign (recordClickState s ⟨cid, uid, token, ip, ua⟩) cid =
          (findCampaign s cid).map (fun c => { c with clicks := c.clicks + 1 }) := by
        unfold findCampaign recordClickState
        exact find?_incClicks s.campaigns cid
      rw [hmap, hc]
      rfl
  · intro s op hinv hfresh
    cases op with
    | dispatch req newId tok mailOk =>
      exact counterInv_postCampaign s req newId tok mailOk hinv hfresh.1 hfresh.2
    | trackGet cid uid token ip ua =>
      show counterInv (getTrackClick s cid uid token ip ua).2
      unfold getTrackClick
      cases hc : findCampaign s cid with
      | none => exact hinv
      | some c =>
        cases hu : findUser s uid with
        | none => exact hinv
        | some u => exact counterInv_recordClick s _ hinv
    | phishing cido uido email pw =>
      show counterInv (postTrackPhishing s cido uido email pw).2
      unfold postTrackPhishing
      split
      · split
        · exact counterInv_recordCredential s _ hinv
        · exact hinv
      · exact hinv
    | clickCompat cid uid token ip ua => exact counterInv_recordClick s _ hinv
    | credCompat cid uid => exact counterInv_recordCredential s _ hinv

/-- C2 (witness): a click against the concrete consistent store appends the
event, and the compat operation preserves the invariant there. -/
theorem c2_witness :
    (getTrackClick dbC2w 9 1 "tok" "ip" "ua").2.clicks =
      dbC2w.clicks ++ [⟨9, 1, "tok", "ip", "ua"⟩]
    ∧ counterInv (CoreOp.run (.trackGet 9 1 "tok" "ip" "ua") dbC2w) :=
  ⟨(c2_click_recording_invariant.1 dbC2w 9 1 "tok" "ip" "ua"
      ⟨9, "c", "s", "b", [1], "active", 0, 0⟩ (by decide) (by decide)).2.1,
   c2_click_recording_invariant.2 dbC2w (.trackGet 9 1 "tok" "ip" "ua")
     (by decide) trivial⟩

/-- C7: the vulnerability report's denominator is the sum of the declared
target-list lengths over all campaigns; with zero targeted recipients both
rates are the number 0, and otherwise both rates are
`total/denominator*100` rounded to one decimal. -/
theorem c7_vulnerability_rates (s : DB) :
    totalEmails s = (s.campaigns.map (fun c => c.targetUsers.length)).sum
    ∧ (totalEmails s = 0 →
        (vulnerabilityReport s).avgClickRate = 0
        ∧ (vulnerabilityReport s).avgCredentialRate = 0)
    ∧ (0 < totalEmails s →
        (vulnerabilityReport s).avgClickRate =
          toFixed1 ((s.clicks.length : ℚ) / (totalEmails s : ℚ) * 100)
        ∧ (vulnerabilityReport s).avgCredentialRate =
          toFixed1 ((s.credentials.length : ℚ) / (totalEmails s : ℚ) * 100)) := by
  refine ⟨by simpa using foldl_targetUsers s.campaigns 0, ?_, ?_⟩
  · intro h
    constructor <;> simp [vulnerabilityReport, h]
  · intro h
    constructor <;> simp [vulnerabilityReport, h]

/-- C7 (witness): with one campaign declaring two recipients and one click
the rate is the rounded 50%, and with no campaigns both rates are 0. -/
theorem c7_witness :
    0 < totalEmails dbC7w
    ∧ (vulnerabilityReport dbC7w).avgClickRate =
        toFixed1 ((dbC7w.clicks.length : ℚ) / (totalEmails dbC7w : ℚ) * 100)
    ∧ totalEmails dbC7z = 0
    ∧ (vulnerabilityReport dbC7z).avgClickRate = 0 :=
  ⟨by decide,
   ((c7_vulnerability_rates dbC7w).2.2 (by decide)).1,
   by decide,
   ((c7_vulnerability_rates dbC7z).2.1 (by decide)).1⟩

/-- C8: every entry of the department report has at least one user
(`total > 0`) and its rate is `clicked/total*100` formatted to one decimal;
the report's rate expression yields the string `"0.0"` at `total = 0`
instead of a division error. -/
theorem c8_department_rates (s : DB) (e : DeptStat)
    (he : e ∈ departmentStatistics s) :
    0 < e.total
    ∧ e.rate = toFixed1Str ((e.clicked : ℚ) / (e.total : ℚ) * 100)
    ∧ ∀ clicked : Nat, deptRate 0 clicked = "0.0" := by
  rcases List.mem_map.1 he with ⟨d, hd, rfl⟩
  rcases exists_user_of_mem_deptKeys s.users d hd with ⟨u, hu, hud⟩
  have htot : 0 < (s.users.filter (fun u => u.department == d)).length :=
    length_filter_pos s.users _ u hu (by simp [hud])
  refine ⟨htot, ?_, fun _ => rfl⟩
  show deptRate _ _ = _
  rw [deptRate, if_pos htot]

/-- C8 (witness): the concrete IT department entry has a positive total and
the formatted rate, and the rate expression at zero total is `"0.0"`. -/
theorem c8_witness :
    0 < eC8w.total
    ∧ eC8w.rate = toFixed1Str ((eC8w.clicked : ℚ) / (eC8w.total : ℚ) * 100)
    ∧ deptRate 0 5 = "0.0" :=
  ⟨(c8_department_rates dbC8w eC8w (List.mem_singleton_self eC8w)).1,
   (c8_department_rates dbC8w eC8w (List.mem_singleton_self eC8w)).2.1,
   (c8_department_rates dbC8w eC8w (List.mem_singleton_self eC8w)).2.2 5⟩

/-- C9 (counterexample): dispatching a body made of HTML metacharacters
invokes the mailer with those metacharacters verbatim in the `html`
rendering — not the entity-escaped rendering the claim demands. -/
theorem c9_counterexample :
    (postCampaign dbC9x reqC9x 1 (fun _ => "t") (fun _ => true)).2.2 = [msgC9x]
    ∧ msgC9x.text = reqC9x.customBody
    ∧ msgC9x.html = "<p><b>x</b></p>"
    ∧ specHtmlEscape msgC9x.text = "&lt;b&gt;x&lt;/b&gt;"
    ∧ msgC9x.html ≠ "<p>" ++ specHtmlEscape msgC9x.text ++ "</p>" :=
  ⟨by decide, by decide, rfl, by decide, by decide⟩

/-- C9 (amended): every mailer invocation of a dispatch carries a plain-text
rendering (the body with its first `[LINK]` replaced by the tracking URL)
and an HTML rendering that merely wraps that same text in `<p>…</p>` with
newlines turned into `<br>`, without escaping HTML metacharacters. -/
theorem c9_mailer_rendering (s : DB) (req : DispatchRequest) (newId : Nat)
    (tok : Nat → String) (mailOk : Nat → Bool) (msg : MailMsg)
    (h : msg ∈ (postCampaign s req newId tok mailOk).2.2) :
    msg.html = "<p>" ++ replaceAllChar msg.text '\n' "<br>" ++ "</p>"
    ∧ ∃ url, msg.text = replaceFirst req.customBody "[LINK]" url := by
  unfold postCampaign at h
  repeat' split at h
  · simp at h
  · simp at h
  · simp at h
  · simp at h
  · rcases dispatchLoop_mem_msgs _ _ _ _ _ _ _ _ h with ⟨u, j, rfl⟩
    exact ⟨rfl, _, rfl⟩

/-- C9 (witness): the one message of the concrete dispatch satisfies the
amended rendering contract. -/
theorem c9_witness :
    msgC9x ∈ (postCampaign dbC9x reqC9x 1 (fun _ => "t") (fun _ => true)).2.2
    ∧ msgC9x.html = "<p>" ++ replaceAllChar msgC9x.text '\n' "<br>" ++ "</p>" :=
  ⟨by decide,
   (c9_mailer_rendering dbC9x reqC9x 1 (fun _ => "t") (fun _ => true) msgC9x
     (by decide)).1⟩

/-- C10: in every vulnerability report the three risk buckets partition the
user set: `highRisk + mediumRisk + lowRisk = totalUsers`. -/
theorem c10_risk_buckets_partition (s : DB) :
    (vulnerabilityReport s).highRisk + (vulnerabilityReport s).mediumRisk
      + (vulnerabilityReport s).lowRisk = (vulnerabilityReport s).totalUsers := by
  have h := length_filter_risk_partition (vulnUserStats s) (vulnUserStats_risk_cases s)
  have hlen : (vulnUserStats s).length = s.users.length := by
    simp [vulnUserStats]
  show ((vulnUserStats s).filter (fun u => u.risk == "high")).length
      + ((vulnUserStats s).filter (fun u => u.risk == "medium")).length
      + ((vulnUserStats s).filter (fun u => u.risk == "low")).length
      = s.users.length
  rw [h, hlen]

end PhishGuard
